import Mathlib

/-!
Verification development for the challenge/payment core of the
pneuma-games bot (src/index.ts).

The model is a shallow embedding of the stateful handlers:
  - the in-memory maps (`playerStats`, `pendingChallenges`,
    `pendingPayments`, `confirmedPayments`) become association lists
    inside a `GState` record;
  - each event handler becomes a pure function from a state and an
    event to a new state, a list of outbound `Effect`s (messages,
    interaction requests, token disbursements) and a response value;
  - the blockchain is an oracle argument: transaction verification
    outcomes (`VerifyOutcome`) and the result of an outbound transfer
    (`Option String`, a transaction hash or `none` on failure) are
    supplied by the caller, mirroring the awaited calls in the source;
  - JavaScript numbers carrying scores and timestamps become `ℚ`
    (exact for every value the handlers compare); the USDC `bigint`
    amounts (always non-negative here) become `Nat`.

Timers (`setTimeout` purges of terminal payment entries) are not run:
a state in which a terminal entry is still present models the moment
inside the retention window, and a state in which it is absent models
the moment after the purge.
-/

/-- Entry fee for solo play: `parseUnits('0.1', 6)` = 100000 (USDC, 6 decimals). -/
def ENTRY_FEE : Nat := 100000

/-- Challenge wager per leg: `parseUnits('0.2', 6)` = 200000 (USDC, 6 decimals). -/
def CHALLENGE_FEE : Nat := 200000

/-- Per-player record (`interface PlayerStats` in the source). -/
structure PlayerStats where
  displayName : String
  gamesPlayed : Nat
  bestScore : ℚ
  totalScore : ℚ
  challengesWon : Nat
  challengesLost : Nat
  earnings : Nat
deriving DecidableEq

/-- One live challenge (`interface PendingChallenge` in the source).
`createdAt` is the creation timestamp; it is stored and never read by
the modelled handlers. -/
structure PendingChallenge where
  id : String
  challengerId : String
  challengerName : String
  targetId : String
  targetName : String
  wager : Nat
  challengerPaid : Bool
  targetPaid : Bool
  challengerScore : Option ℚ
  targetScore : Option ℚ
  createdAt : Nat
  channelId : String
  challengerTxHash : Option String
  targetTxHash : Option String
deriving DecidableEq

/-- The `type` field of a pending payment. -/
inductive PaymentType where
  | play
  | challengeInitiator
  | challengeAcceptor
deriving DecidableEq

/-- The status field of a pending payment. -/
inductive PaymentStatus where
  | pending
  | confirmed
  | failed
deriving DecidableEq

/-- One outstanding payment leg (`interface PendingPayment` in the source). -/
structure PendingPayment where
  userId : String
  type : PaymentType
  challengeId : Option String
  channelId : String
  status : PaymentStatus
deriving DecidableEq

/-- The process-wide mutable state of the bot. -/
structure GState where
  playerStats : List (String × PlayerStats)
  pendingChallenges : List (String × PendingChallenge)
  pendingPayments : List (String × PendingPayment)
  confirmedPayments : List String
  totalGamesPlayed : Nat
  jackpotPool : Nat
deriving DecidableEq

/-- `Map.get`: first binding of the key, if any. -/
def mapGet {α : Type} (m : List (String × α)) (k : String) : Option α :=
  match m with
  | [] => none
  | (k', v) :: rest => if k' = k then some v else mapGet rest k

/-- `Map.set`: replace the binding in place, or append a fresh one.
JavaScript `Map` keys are unique, so replacing the first binding is
exact. -/
def mapSet {α : Type} (m : List (String × α)) (k : String) (v : α) :
    List (String × α) :=
  match m with
  | [] => [(k, v)]
  | (k', v') :: rest =>
      if k' = k then (k, v) :: rest else (k', v') :: mapSet rest k v

/-- `Map.delete`: drop every binding of the key (on a map with unique
keys this is the single JavaScript deletion). -/
def mapDelete {α : Type} (m : List (String × α)) (k : String) :
    List (String × α) :=
  match m with
  | [] => []
  | (k', v) :: rest =>
      if k' = k then mapDelete rest k else (k', v) :: mapDelete rest k

/-- `Set.add`: idempotent insertion. -/
def setAdd (l : List String) (x : String) : List String :=
  if x ∈ l then l else x :: l

/-- Rational addition, written out by the numerator/denominator formula
so that it evaluates inside the kernel (`Rat.add` itself is declared
irreducible upstream); `qadd_eq_add` identifies it with `+`. -/
def qadd (a b : ℚ) : ℚ := mkRat (a.num * b.den + b.num * a.den) (a.den * b.den)

/-- The record `getOrCreatePlayerStats` installs for a new player. -/
def freshStats (displayName : String) : PlayerStats :=
  { displayName := displayName
    gamesPlayed := 0
    bestScore := 0
    totalScore := 0
    challengesWon := 0
    challengesLost := 0
    earnings := 0 }

/-- `updatePlayerStats`: bump games played, add the score, raise the
best score; creates the record on first sight (via
`getOrCreatePlayerStats`, which keeps an existing record's display
name). -/
def updatePlayerStats (m : List (String × PlayerStats))
    (userId displayName : String) (score : ℚ) : List (String × PlayerStats) :=
  let s := (mapGet m userId).getD (freshStats displayName)
  mapSet m userId
    { s with
      gamesPlayed := s.gamesPlayed + 1
      totalScore := qadd s.totalScore score
      bestScore := if score > s.bestScore then score else s.bestScore }

/-- Outbound side effects of a handler, in emission order. -/
inductive Effect where
  | message (channelId : String)
  | txRequest (channelId paymentId recipient : String) (amount : Nat)
  | formRequest (channelId formId recipient : String)
  | disburse (recipient : String) (amount : Nat)
deriving DecidableEq

/-- `Effect.disburse` recogniser, for counting refund/payout attempts. -/
def Effect.isDisburse : Effect → Bool
  | .disburse _ _ => true
  | _ => false

/-- `sendPrize`: one outbound USDC transfer attempt. The on-chain half
(account resolution, transfer, receipt wait) is the oracle
`chainResult`: `some hash` if the transfer confirmed, `none` on any
failure. The attempt itself is the `disburse` effect. -/
def sendPrize (recipientUserId : String) (amount : Nat)
    (chainResult : Option String) : Option String × List Effect :=
  (chainResult, [Effect.disburse recipientUserId amount])

/-- Prize pool of a settlement: `const totalPrize = CHALLENGE_FEE * 2n`,
with the wager generalised (every stored challenge has
`wager = CHALLENGE_FEE`). -/
def totalPrize (wager : Nat) : Nat := wager * 2

/-- Protocol fee: `const botCut = totalPrize / 100n` (bigint division
truncates; on non-negative operands that is floor division). -/
def botCut (wager : Nat) : Nat := totalPrize wager / 100

/-- Winner payout: `const winnerPrize = totalPrize - botCut`. -/
def winnerPrize (wager : Nat) : Nat := totalPrize wager - botCut wager

/-- Body of a `/api/score` request after JSON decoding. A missing
`displayName` is the empty string (the source substitutes `'Player'`
for a falsy value). -/
structure ScoreRequest where
  userId : String
  score : ℚ
  timestamp : ℚ
  displayName : String
  challengeId : Option String
deriving DecidableEq

/-- Response of the `/api/score` endpoint, keeping the fields the
claims are about. -/
inductive ScoreResult where
  | errMissing
  | errScore
  | errTimestamp
  | okChallengeComplete (isWinner : Bool) (winnerId winnerName : String)
      (winnerScore : ℚ) (loserId loserName : String) (loserScore : ℚ)
      (prize : Nat)
  | okWaiting
  | okSolo (jackpotPool : Nat)
deriving DecidableEq

/-- Is the result a validation error? -/
def ScoreResult.isErr : ScoreResult → Bool
  | .errMissing => true
  | .errScore => true
  | .errTimestamp => true
  | _ => false

/-- Did the result report a completed (settled) challenge? -/
def ScoreResult.isComplete : ScoreResult → Bool
  | .okChallengeComplete .. => true
  | _ => false

/-- Winner identity of a completed-challenge result. -/
def ScoreResult.winnerIdOf : ScoreResult → Option String
  | .okChallengeComplete _ w _ _ _ _ _ _ => some w
  | _ => none

/-- Loser identity of a completed-challenge result. -/
def ScoreResult.loserIdOf : ScoreResult → Option String
  | .okChallengeComplete _ _ _ _ l _ _ _ => some l
  | _ => none

/-- Winner score of a completed-challenge result. -/
def ScoreResult.winnerScoreOf : ScoreResult → Option ℚ
  | .okChallengeComplete _ _ _ ws _ _ _ _ => some ws
  | _ => none

/-- Loser score of a completed-challenge result. -/
def ScoreResult.loserScoreOf : ScoreResult → Option ℚ
  | .okChallengeComplete _ _ _ _ _ _ ls _ => some ls
  | _ => none

/-- Prize of a completed-challenge result. -/
def ScoreResult.prizeOf : ScoreResult → Option Nat
  | .okChallengeComplete _ _ _ _ _ _ _ p => some p
  | _ => none

/-- The player-record update of the settlement block (source lines
computing `getOrCreatePlayerStats` for winner and loser and bumping
`challengesWon`/`earnings`/`challengesLost`), factored out of
`settleChallenge`. -/
def creditStats (P : List (String × PlayerStats))
    (winnerId winnerName loserId loserName : String) (prize : Nat) :
    List (String × PlayerStats) :=
  let w := (mapGet P winnerId).getD (freshStats winnerName)
  let stats1 := mapSet P winnerId
    { w with challengesWon := w.challengesWon + 1, earnings := w.earnings + prize }
  let l := (mapGet stats1 loserId).getD (freshStats loserName)
  mapSet stats1 loserId { l with challengesLost := l.challengesLost + 1 }

/-- The settlement block of the `/api/score` handler (reached when both
scores are non-null): pick winner and loser, compute the split, credit
the winner's and debit the loser's records, attempt the payout, send the
result message and destroy the challenge. `cs`/`ts` are the two stored
scores of the (already score-updated) challenge `ch`. -/
def settleChallenge (st : GState) (req : ScoreRequest) (cid : String)
    (ch : PendingChallenge) (cs ts : ℚ) (chainResult : Option String) :
    GState × List Effect × ScoreResult :=
  let winnerId := if cs > ts then ch.challengerId else ch.targetId
  let loserId := if winnerId = ch.challengerId then ch.targetId else ch.challengerId
  let winnerName := if winnerId = ch.challengerId then ch.challengerName else ch.targetName
  let loserName := if loserId = ch.challengerId then ch.challengerName else ch.targetName
  let prize := winnerPrize CHALLENGE_FEE
  let pr := sendPrize winnerId prize chainResult
  ({ st with
      playerStats := creditStats st.playerStats winnerId winnerName loserId loserName prize
      pendingChallenges := mapDelete st.pendingChallenges cid },
   pr.2 ++ [Effect.message ch.channelId],
   .okChallengeComplete (req.userId = winnerId) winnerId winnerName
     (if winnerId = ch.challengerId then cs else ts) loserId loserName
     (if loserId = ch.challengerId then cs else ts) prize)

/-- Solo tail of the `/api/score` handler: 10% of the entry fee goes to
the jackpot pool. -/
def soloJackpot (st : GState) : GState × List Effect × ScoreResult :=
  let jp := st.jackpotPool + ENTRY_FEE / 10
  ({ st with jackpotPool := jp }, [], .okSolo jp)

/-- The `/api/score` handler. `now` is `Date.now()`; `chainResult` is
the oracle for the payout transfer should a settlement occur. The
validation order, the unconditional stats update, the unguarded score
assignment and the fall-through of an unknown `challengeId` to the solo
path follow the source line by line. -/
def scoreHandler (st : GState) (req : ScoreRequest) (now : ℚ)
    (chainResult : Option String) : GState × List Effect × ScoreResult :=
  if req.userId = "" then (st, [], .errMissing)
  else if req.score < 0 ∨ req.score > 100000 then (st, [], .errScore)
  else if req.timestamp < 0 ∨ req.timestamp > qadd now 60000 then (st, [], .errTimestamp)
  else
    let stats1 := updatePlayerStats st.playerStats req.userId
      (if req.displayName = "" then "Player" else req.displayName) req.score
    let st1 := { st with
      playerStats := stats1
      totalGamesPlayed := st.totalGamesPlayed + 1 }
    match req.challengeId with
    | some cid =>
        match mapGet st1.pendingChallenges cid with
        | some ch =>
            let ch1 :=
              if req.userId = ch.challengerId then
                { ch with challengerScore := some req.score }
              else if req.userId = ch.targetId then
                { ch with targetScore := some req.score }
              else ch
            let st2 := { st1 with
              pendingChallenges := mapSet st1.pendingChallenges cid ch1 }
            match ch1.challengerScore, ch1.targetScore with
            | some cs, some ts => settleChallenge st2 req cid ch1 cs ts chainResult
            | _, _ => (st2, [], .okWaiting)
        | none => soloJackpot st1
    | none => soloJackpot st1

/-- A transaction interaction response: the payment identifier it
answers and the transaction hash, absent when the user cancelled or the
transaction was never sent. -/
structure TxResponse where
  requestId : String
  txHash : Option String
deriving DecidableEq

/-- Outcome of `waitForTransactionReceipt` on the submitted hash:
a mined receipt with success status, a mined receipt with failure
status, an RPC timeout exception, or any other exception. -/
inductive VerifyOutcome where
  | receiptSuccess
  | receiptReverted
  | errTimeout
  | errOther
deriving DecidableEq

/-- The transaction branch of `onInteractionResponse`. `verify` is the
oracle for the on-chain receipt wait. Every path follows the source:
an unknown `requestId` is ignored; an absent hash marks the entry
failed; a reverted receipt or a non-timeout verification error marks it
failed; a timeout marks it confirmed ("transaction might still be
valid"); a successful receipt dispatches on the payment type, deleting
the entry for challenge legs and keeping it (confirmed) for solo play.
The handler never consults the entry's current status. -/
def onTransactionResponse (st : GState) (tx : TxResponse)
    (verify : VerifyOutcome) : GState × List Effect :=
  match mapGet st.pendingPayments tx.requestId with
  | none => (st, [])
  | some pending =>
    match tx.txHash with
    | none =>
        let p1 := { pending with status := PaymentStatus.failed }
        ({ st with pendingPayments := mapSet st.pendingPayments tx.requestId p1 },
         [Effect.message pending.channelId])
    | some h =>
      match verify with
      | .receiptReverted =>
          let p1 := { pending with status := PaymentStatus.failed }
          ({ st with pendingPayments := mapSet st.pendingPayments tx.requestId p1 },
           [Effect.message pending.channelId])
      | .errTimeout =>
          let p1 := { pending with status := PaymentStatus.confirmed }
          ({ st with
              pendingPayments := mapSet st.pendingPayments tx.requestId p1
              confirmedPayments := setAdd st.confirmedPayments tx.requestId },
           [Effect.message pending.channelId])
      | .errOther =>
          let p1 := { pending with status := PaymentStatus.failed }
          ({ st with pendingPayments := mapSet st.pendingPayments tx.requestId p1 },
           [Effect.message pending.channelId])
      | .receiptSuccess =>
        match pending.type, pending.challengeId with
        | .play, _ =>
            let p1 := { pending with status := PaymentStatus.confirmed }
            ({ st with
                pendingPayments := mapSet st.pendingPayments tx.requestId p1
                confirmedPayments := setAdd st.confirmedPayments tx.requestId },
             [Effect.message pending.channelId])
        | .challengeInitiator, some cid =>
            match mapGet st.pendingChallenges cid with
            | none => (st, [])
            | some ch =>
                let ch1 := { ch with challengerPaid := true, challengerTxHash := some h }
                ({ st with
                    pendingChallenges := mapSet st.pendingChallenges cid ch1
                    pendingPayments := mapDelete st.pendingPayments tx.requestId },
                 [Effect.message ch.channelId,
                  Effect.formRequest ch.channelId
                    (String.append "challenge-response-" ch.id) ch.targetId])
        | .challengeAcceptor, some cid =>
            match mapGet st.pendingChallenges cid with
            | none => (st, [])
            | some ch =>
                let ch1 := { ch with targetPaid := true, targetTxHash := some h }
                ({ st with
                    pendingChallenges := mapSet st.pendingChallenges cid ch1
                    pendingPayments := mapDelete st.pendingPayments tx.requestId },
                 [Effect.message ch.channelId])
        | .challengeInitiator, none => (st, [])
        | .challengeAcceptor, none => (st, [])

/-- A form interaction response: the form identifier and the ids of the
button components it carries (a well-formed response carries the single
clicked button). -/
structure FormResponse where
  requestId : String
  components : List String
deriving DecidableEq

/-- One button of the accept/decline form, acting on the challenge
`ch`/`cid` that was looked up once before the component loop.
`accept` opens the acceptor's payment leg and sends the payment
request; `decline` refunds the challenger's wager via `sendPrize`
(oracle `chainResult`), reports the outcome to the channel, and retires
the challenge whether or not the refund went through. -/
def handleFormComponent (st : GState) (ch : PendingChallenge) (cid : String)
    (userId : String) (chainResult : Option String) (compId : String) :
    GState × List Effect :=
  if compId = "accept" then
    let paymentId := String.append "challenge-accept-" cid
    let entry : PendingPayment :=
      { userId := userId
        type := .challengeAcceptor
        challengeId := some cid
        channelId := ch.channelId
        status := .pending }
    ({ st with pendingPayments := mapSet st.pendingPayments paymentId entry },
     [Effect.txRequest ch.channelId paymentId userId CHALLENGE_FEE])
  else if compId = "decline" then
    let pr := sendPrize ch.challengerId CHALLENGE_FEE chainResult
    ({ st with pendingChallenges := mapDelete st.pendingChallenges cid },
     pr.2 ++ [Effect.message ch.channelId])
  else (st, [])

/-- Does the character list `s` begin with `marker`? Written as plain
structural recursion so that it evaluates in the kernel. -/
def charsLeadWith : List Char → List Char → Bool
  | [], _ => true
  | _ :: _, [] => false
  | a :: marker, b :: s => if a = b then charsLeadWith marker s else false

/-- Model of `String.startsWith`, on the underlying character lists. -/
def strLeadsWith (s marker : String) : Bool := charsLeadWith marker.data s.data

/-- Model of `String.drop`, on the underlying character list. -/
def strDropChars (s : String) (n : Nat) : String := String.mk (s.data.drop n)

/-- The form branch of `onInteractionResponse`. The source recovers the
challenge id with `requestId.replace('challenge-response-', '')`; on a
request id that starts with that marker this equals dropping the
marker, which is what the model does. A response for an unknown
challenge, or from anyone but the target, is ignored. -/
def onFormResponse (st : GState) (form : FormResponse) (userId : String)
    (chainResult : Option String) : GState × List Effect :=
  if strLeadsWith form.requestId "challenge-response-" then
    let cid := strDropChars form.requestId (String.length "challenge-response-")
    match mapGet st.pendingChallenges cid with
    | none => (st, [])
    | some ch =>
        if userId ≠ ch.targetId then (st, [])
        else
          form.components.foldl
            (fun acc compId =>
              let r := handleFormComponent acc.1 ch cid userId chainResult compId
              (r.1, acc.2 ++ r.2))
            (st, [])
  else (st, [])

/-- Challenges-won count of a player, zero when the record is absent. -/
def wonCount (m : List (String × PlayerStats)) (k : String) : Nat :=
  ((mapGet m k).map PlayerStats.challengesWon).getD 0

/-- Challenges-lost count of a player, zero when the record is absent. -/
def lostCount (m : List (String × PlayerStats)) (k : String) : Nat :=
  ((mapGet m k).map PlayerStats.challengesLost).getD 0

/-- Cumulative earnings of a player, zero when the record is absent. -/
def earningsOf (m : List (String × PlayerStats)) (k : String) : Nat :=
  ((mapGet m k).map PlayerStats.earnings).getD 0

/-- The empty process state at startup. -/
def emptyState : GState :=
  { playerStats := []
    pendingChallenges := []
    pendingPayments := []
    confirmedPayments := []
    totalGamesPlayed := 0
    jackpotPool := 0 }

/-- Challenge exactly as the `/challenge` command creates it: both paid
flags false, both scores null. -/
def c2Challenge : PendingChallenge :=
  { id := "challenge-1"
    challengerId := "alice"
    challengerName := "Alice"
    targetId := "bob"
    targetName := "Bob"
    wager := CHALLENGE_FEE
    challengerPaid := false
    targetPaid := false
    challengerScore := none
    targetScore := none
    createdAt := 0
    channelId := "chan"
    challengerTxHash := none
    targetTxHash := none }

/-- State containing only the freshly created (completely unpaid) challenge. -/
def c2State : GState :=
  { emptyState with pendingChallenges := [("challenge-1", c2Challenge)] }

/-- Challenge whose challenger has already recorded a score. -/
def c7Challenge : PendingChallenge :=
  { c2Challenge with
    id := "challenge-7"
    challengerPaid := true
    targetPaid := true
    challengerScore := some 500 }

/-- State containing the half-scored challenge. -/
def c7State : GState :=
  { emptyState with pendingChallenges := [("challenge-7", c7Challenge)] }

/-- Paid-up challenge whose challenger has recorded 500 points. -/
def c3Challenge : PendingChallenge :=
  { c2Challenge with
    id := "challenge-3"
    challengerPaid := true
    targetPaid := true
    challengerScore := some 500 }

/-- State containing the challenge awaiting the target's score. -/
def c3State : GState :=
  { emptyState with pendingChallenges := [("challenge-3", c3Challenge)] }

/-- Challenge in the awaiting-response stage (challenger paid, target
has not answered), as it stands when the decline button arrives. -/
def c4Challenge : PendingChallenge :=
  { c2Challenge with id := "challenge-4", challengerPaid := true }

/-- State containing only that challenge. -/
def c4State : GState :=
  { emptyState with pendingChallenges := [("challenge-4", c4Challenge)] }

/-- State holding one pending solo-play payment entry. -/
def c5State : GState :=
  { emptyState with
    pendingPayments := [("pay-5", ⟨"alice", .play, none, "chan", .pending⟩)] }

/-- State holding a solo-play payment entry already in the terminal
`failed` status (inside its 30-second retention window). -/
def c6State : GState :=
  { emptyState with
    pendingPayments := [("pay-6", ⟨"alice", .play, none, "chan", .failed⟩)] }

theorem qadd_eq_add (a b : ℚ) : qadd a b = a + b := (Rat.add_def' a b).symm

theorem mapGet_mapSet_self {α : Type} (m : List (String × α)) (k : String)
    (v : α) : mapGet (mapSet m k v) k = some v := by
  induction m with
  | nil => simp [mapGet, mapSet]
  | cons p rest ih =>
      by_cases h : p.1 = k
      · simp [mapGet, mapSet, h]
      · simp [mapGet, mapSet, h, ih]

theorem mapGet_mapSet_ne {α : Type} (m : List (String × α)) (k k' : String)
    (v : α) (h : k ≠ k') : mapGet (mapSet m k v) k' = mapGet m k' := by
  induction m with
  | nil => simp [mapGet, mapSet, h]
  | cons p rest ih =>
      by_cases hp : p.1 = k
      · simp [mapGet, mapSet, hp, h]
      · simp only [mapSet, hp, if_false]
        by_cases hp' : p.1 = k'
        · simp [mapGet, hp']
        · simp [mapGet, hp', ih]

theorem mapGet_mapDelete_self {α : Type} (m : List (String × α)) (k : String) :
    mapGet (mapDelete m k) k = none := by
  induction m with
  | nil => simp [mapGet, mapDelete]
  | cons p rest ih =>
      by_cases h : p.1 = k
      · simpa [mapDelete, h] using ih
      · simpa [mapDelete, mapGet, h] using ih

theorem mapGet_mapDelete_ne {α : Type} (m : List (String × α)) (k k' : String)
    (h : k ≠ k') : mapGet (mapDelete m k) k' = mapGet m k' := by
  induction m with
  | nil => simp [mapGet, mapDelete]
  | cons p rest ih =>
      by_cases hp : p.1 = k
      · have hpk' : ¬ p.1 = k' := by simpa [hp] using h
        simp [mapDelete, hp, mapGet, hpk', ih, h]
      · by_cases hp' : p.1 = k'
        · simp [mapDelete, mapGet, hp, hp', Ne.symm h]
        · simp [mapDelete, mapGet, hp, hp', ih]

/-- C1: a settlement computes prize pool = 2 x wager, protocol fee =
floor(pool / 100) and winner payout = pool - fee; payout + fee = 2 x
wager holds for every wager value, and at the actual wager
(CHALLENGE_FEE = 200000) the pool is 400000, the fee 4000 and the
payout 396000; the settlement block reports exactly this payout. -/
theorem settlement_split_exact :
    (∀ wager : Nat, winnerPrize wager + botCut wager = 2 * wager) ∧
    (∀ st req cid ch cs ts r,
      (settleChallenge st req cid ch cs ts r).2.2.prizeOf =
        some (winnerPrize CHALLENGE_FEE)) ∧
    CHALLENGE_FEE = 200000 ∧ totalPrize 200000 = 400000 ∧
    botCut 200000 = 4000 ∧ winnerPrize 200000 = 396000 := by
  refine ⟨fun w => ?_, fun st req cid ch cs ts r => rfl, rfl, rfl, rfl, rfl⟩
  simp only [winnerPrize, botCut, totalPrize]
  omega

/-- C2: the claim asserts a challenge never settles unless both paid
flags are true. The score handler checks only that both scores are
non-null, so two score submissions settle a challenge on which nobody
has paid: starting from the freshly created challenge (both paid flags
false), the two submissions complete the settlement, emit the 396000
payout disbursement and destroy the challenge. -/
theorem c2_settles_unpaid_challenge :
    c2Challenge.challengerPaid = false ∧ c2Challenge.targetPaid = false ∧
    (let r1 := scoreHandler c2State ⟨"alice", 800, 0, "Alice", some "challenge-1"⟩ 0 none
     let r2 := scoreHandler r1.1 ⟨"bob", 650, 0, "Bob", some "challenge-1"⟩ 0 none
     r2.2.2.isComplete = true ∧
     Effect.disburse "alice" 396000 ∈ r2.2.1 ∧
     mapGet r2.1.pendingChallenges "challenge-1" = none) := by
  decide

/-- C7: the claim asserts each score field is set at most once. The
handler assigns `challenge.challengerScore = score` unconditionally, so
a second submission by the challenger replaces the recorded 500 with
800 instead of being rejected. -/
theorem c7_score_overwritten :
    c7Challenge.challengerScore = some 500 ∧
    (mapGet (scoreHandler c7State
        ⟨"alice", 800, 0, "Alice", some "challenge-7"⟩ 0 none).1.pendingChallenges
        "challenge-7").map PendingChallenge.challengerScore = some (some 800) := by
  decide

/-- C3 counterexample: on a tie (500 vs 500) the settlement credits the
target as winner although the target's score is not strictly greater
than the challenger's (the winner and loser scores are equal). -/
theorem c3_tie_winner_not_strictly_greater :
    (let r := scoreHandler c3State ⟨"bob", 500, 0, "Bob", some "challenge-3"⟩ 0 none
     r.2.2.isComplete = true ∧
     r.2.2.winnerIdOf = some "bob" ∧
     r.2.2.winnerScoreOf = some 500 ∧
     r.2.2.loserScoreOf = some 500) := by
  decide

/-- C3 (amended): in a settlement between distinct parties the
challenger is credited as winner exactly when the challenger's score is
strictly greater; otherwise — ties included — the target is credited,
so the winner's recorded score is greater than or equal to the loser's,
with equality possible (tie goes to the target). -/
theorem c3_winner_score_ge_loser (st : GState) (req : ScoreRequest)
    (cid : String) (ch : PendingChallenge) (cs ts : ℚ) (r : Option String)
    (h : ch.challengerId ≠ ch.targetId) :
    ((settleChallenge st req cid ch cs ts r).2.2.winnerIdOf = some ch.challengerId ↔
      ts < cs) ∧
    ∃ ws ls,
      (settleChallenge st req cid ch cs ts r).2.2.winnerScoreOf = some ws ∧
      (settleChallenge st req cid ch cs ts r).2.2.loserScoreOf = some ls ∧
      ls ≤ ws := by
  by_cases hgt : cs > ts
  · refine ⟨?_, cs, ts, ?_, ?_, le_of_lt hgt⟩ <;>
      simp [settleChallenge, ScoreResult.winnerIdOf, ScoreResult.winnerScoreOf,
        ScoreResult.loserScoreOf, hgt, h, Ne.symm h, gt_iff_lt]
  · refine ⟨?_, ts, cs, ?_, ?_, le_of_not_lt hgt⟩ <;>
      simp [settleChallenge, ScoreResult.winnerIdOf, ScoreResult.winnerScoreOf,
        ScoreResult.loserScoreOf, hgt, h, Ne.symm h, gt_iff_lt]

/-- Witness for C3 (amended) at the tie settlement 500 vs 500. -/
theorem c3_winner_score_ge_loser_witness :
    c3Challenge.challengerId ≠ c3Challenge.targetId ∧
    (((settleChallenge emptyState ⟨"bob", 500, 0, "Bob", some "challenge-3"⟩
        "challenge-3" c3Challenge 500 500 none).2.2.winnerIdOf =
          some c3Challenge.challengerId ↔ (500 : ℚ) < 500) ∧
     ∃ ws ls,
       (settleChallenge emptyState ⟨"bob", 500, 0, "Bob", some "challenge-3"⟩
          "challenge-3" c3Challenge 500 500 none).2.2.winnerScoreOf = some ws ∧
       (settleChallenge emptyState ⟨"bob", 500, 0, "Bob", some "challenge-3"⟩
          "challenge-3" c3Challenge 500 500 none).2.2.loserScoreOf = some ls ∧
       ls ≤ ws) :=
  ⟨by decide, c3_winner_score_ge_loser _ _ _ _ _ _ _ (by decide)⟩

/-- C4: for a live challenge, a decline response from the target causes
exactly one refund disbursement attempt, of the wager amount to the
challenger; the challenge leaves the live set whether the refund oracle
reports success or failure (the oracle `r` is arbitrary); and no player
record is touched. The two parse hypotheses say the form id is the
challenge-response id from which the handler recovers `cid`. -/
theorem c4_decline_single_refund (st : GState) (form : FormResponse)
    (ch : PendingChallenge) (cid userId : String) (r : Option String)
    (hstart : strLeadsWith form.requestId "challenge-response-" = true)
    (hdrop : strDropChars form.requestId (String.length "challenge-response-") = cid)
    (hcomp : form.components = ["decline"])
    (hch : mapGet st.pendingChallenges cid = some ch)
    (huser : userId = ch.targetId)
    (hwager : ch.wager = CHALLENGE_FEE) :
    (onFormResponse st form userId r).2.filter Effect.isDisburse =
      [Effect.disburse ch.challengerId ch.wager] ∧
    mapGet (onFormResponse st form userId r).1.pendingChallenges cid = none ∧
    (onFormResponse st form userId r).1.playerStats = st.playerStats := by
  have hda : ("decline" : String) ≠ "accept" := by decide
  simp only [onFormResponse, hstart, if_true, hdrop, hch, huser, ne_eq,
    not_true_eq_false, if_false, hcomp, List.foldl_cons, List.foldl_nil,
    handleFormComponent, sendPrize, hda, hwager, List.nil_append,
    eq_self_iff_true, ite_true, ite_false]
  refine ⟨?_, ?_, ?_⟩
  · simp [Effect.isDisburse, List.filter]
  · exact mapGet_mapDelete_self _ _
  · trivial

/-- Witness for C4: the concrete decline of `challenge-4` by its target
with a failing refund oracle. -/
theorem c4_decline_single_refund_witness :
    mapGet c4State.pendingChallenges "challenge-4" = some c4Challenge ∧
    ((onFormResponse c4State ⟨"challenge-response-challenge-4", ["decline"]⟩
        "bob" none).2.filter Effect.isDisburse =
      [Effect.disburse c4Challenge.challengerId c4Challenge.wager] ∧
     mapGet (onFormResponse c4State ⟨"challenge-response-challenge-4", ["decline"]⟩
        "bob" none).1.pendingChallenges "challenge-4" = none ∧
     (onFormResponse c4State ⟨"challenge-response-challenge-4", ["decline"]⟩
        "bob" none).1.playerStats = c4State.playerStats) :=
  ⟨by decide,
   c4_decline_single_refund c4State ⟨"challenge-response-challenge-4", ["decline"]⟩
     c4Challenge "challenge-4" "bob" none (by decide) (by decide) rfl (by decide)
     (by decide) rfl⟩

/-- C5 counterexample: the transaction handler never inspects the
entry's status, so invoking it a second time for a solo-play payment
that the first call already moved to the terminal `confirmed` status
(the entry is retained for its polling grace window) re-processes it
and emits a second confirmation message — a duplicate side effect. -/
theorem c5_second_call_duplicates_message :
    (let r1 := onTransactionResponse c5State ⟨"pay-5", some "0xaaa"⟩ .receiptSuccess
     let r2 := onTransactionResponse r1.1 ⟨"pay-5", some "0xaaa"⟩ .receiptSuccess
     (mapGet r1.1.pendingPayments "pay-5").map PendingPayment.status =
        some .confirmed ∧
     r2.2 = [Effect.message "chan"]) := by
  decide

/-- C5 (amended): re-invoking the payment-confirmation handler with the
same paymentId is a no-op — no state change and no side effect — once
the ledger no longer holds the entry, which is the case immediately
after a challenge leg is processed (the entry is deleted) and after a
terminal solo entry's retention window has expired; while a terminal
solo entry is still retained, a second invocation re-processes it and
duplicates its side effects. -/
theorem c5_absent_entry_noop (st : GState) (tx : TxResponse)
    (v : VerifyOutcome) (h : mapGet st.pendingPayments tx.requestId = none) :
    onTransactionResponse st tx v = (st, []) := by
  simp [onTransactionResponse, h]

/-- Witness for C5 (amended): the empty ledger ignores a stray response. -/
theorem c5_absent_entry_noop_witness :
    mapGet emptyState.pendingPayments "pay-5" = none ∧
    onTransactionResponse emptyState ⟨"pay-5", some "0xaaa"⟩ .receiptSuccess =
      (emptyState, []) :=
  ⟨by decide,
   c5_absent_entry_noop emptyState ⟨"pay-5", some "0xaaa"⟩ .receiptSuccess (by decide)⟩

/-- C6 counterexample: a later response for the same paymentId carrying
a hash whose receipt verifies successfully moves the retained entry
from `failed` back to `confirmed` — the status is not monotonic. -/
theorem c6_failed_flips_to_confirmed :
    (mapGet c6State.pendingPayments "pay-6").map PendingPayment.status =
      some .failed ∧
    (mapGet (onTransactionResponse c6State ⟨"pay-6", some "0xbbb"⟩
        .receiptSuccess).1.pendingPayments "pay-6").map PendingPayment.status =
      some .confirmed := by
  decide

/-- After the transaction handler runs, the payment map is unchanged,
has had the response's entry deleted, or has had it overwritten with a
terminal (non-pending) status; it is never overwritten with `pending`. -/
theorem onTx_pendingPayments_cases (st : GState) (tx : TxResponse)
    (v : VerifyOutcome) :
    (onTransactionResponse st tx v).1.pendingPayments = st.pendingPayments ∨
    (onTransactionResponse st tx v).1.pendingPayments =
      mapDelete st.pendingPayments tx.requestId ∨
    ∃ q : PendingPayment, q.status ≠ .pending ∧
      (onTransactionResponse st tx v).1.pendingPayments =
        mapSet st.pendingPayments tx.requestId q := by
  unfold onTransactionResponse
  rcases hq : mapGet st.pendingPayments tx.requestId with _ | pending
  · left; rfl
  · rcases hh : tx.txHash with _ | h
    · right; right; refine ⟨_, ?_, rfl⟩; simp
    · cases v
      case receiptReverted => right; right; refine ⟨_, ?_, rfl⟩; simp
      case errTimeout => right; right; refine ⟨_, ?_, rfl⟩; simp
      case errOther => right; right; refine ⟨_, ?_, rfl⟩; simp
      case receiptSuccess =>
        dsimp only
        rcases hty : pending.type with _ | _ | _ <;>
          rcases hcid : pending.challengeId with _ | cid
        · right; right; refine ⟨_, ?_, rfl⟩; simp
        · right; right; refine ⟨_, ?_, rfl⟩; simp
        · left; rfl
        · dsimp only
          rcases hch : mapGet st.pendingChallenges cid with _ | ch
          · left; rfl
          · right; left; rfl
        · left; rfl
        · dsimp only
          rcases hch : mapGet st.pendingChallenges cid with _ | ch
          · left; rfl
          · right; left; rfl

/-- C6 (amended): within the transaction handler a payment entry moves
from `pending` only to a terminal status, and a terminal entry is never
reset to `pending` — but monotonicity between the two terminal statuses
fails: while a terminal entry is retained, a repeated response for the
same paymentId can overwrite `failed` with `confirmed` (successful or
timed-out verification) or `confirmed` with `failed`. -/
theorem c6_status_never_back_to_pending (st : GState) (tx : TxResponse)
    (v : VerifyOutcome) (pid : String) (p p' : PendingPayment)
    (hpre : mapGet st.pendingPayments pid = some p)
    (hterm : p.status ≠ .pending)
    (hpost : mapGet (onTransactionResponse st tx v).1.pendingPayments pid =
      some p') :
    p'.status ≠ .pending := by
  rcases onTx_pendingPayments_cases st tx v with hc | hc | ⟨q, hq, hc⟩
  · rw [hc, hpre] at hpost
    cases hpost
    exact hterm
  · rw [hc] at hpost
    by_cases he : tx.requestId = pid
    · rw [he, mapGet_mapDelete_self] at hpost
      cases hpost
    · rw [mapGet_mapDelete_ne _ _ _ he, hpre] at hpost
      cases hpost
      exact hterm
  · rw [hc] at hpost
    by_cases he : tx.requestId = pid
    · rw [he, mapGet_mapSet_self] at hpost
      cases hpost
      exact hq
    · rw [mapGet_mapSet_ne _ _ _ _ he, hpre] at hpost
      cases hpost
      exact hterm

/-- Witness for C6 (amended): the retained failed entry of `c6State` is
overwritten by a successful re-verification, and the new status is
indeed not `pending`. -/
theorem c6_status_never_back_to_pending_witness :
    mapGet c6State.pendingPayments "pay-6" =
      some ⟨"alice", .play, none, "chan", .failed⟩ ∧
    PendingPayment.status ⟨"alice", .play, none, "chan", .failed⟩ ≠ .pending ∧
    mapGet (onTransactionResponse c6State ⟨"pay-6", some "0xbbb"⟩
        .receiptSuccess).1.pendingPayments "pay-6" =
      some ⟨"alice", .play, none, "chan", .confirmed⟩ ∧
    PendingPayment.status ⟨"alice", .play, none, "chan", .confirmed⟩ ≠ .pending :=
  ⟨by decide, by decide, by decide,
   c6_status_never_back_to_pending c6State ⟨"pay-6", some "0xbbb"⟩ .receiptSuccess
     "pay-6" ⟨"alice", .play, none, "chan", .failed⟩
     ⟨"alice", .play, none, "chan", .confirmed⟩ (by decide) (by decide) (by decide)⟩

/-- C8 counterexample: the validation checks only the numeric range,
not integrality, so the non-integer score 1/2 (denominator 2) passes
validation and mutates state — a player record is created and the
games-played aggregate is bumped — although the claim requires every
non-integer score to fail with a validation error and no mutation. -/
theorem c8_noninteger_score_accepted :
    (mkRat 1 2).den = 2 ∧
    (let r := scoreHandler emptyState ⟨"alice", mkRat 1 2, 0, "Alice", none⟩ 0 none
     r.2.2.isErr = false ∧
     r.1.totalGamesPlayed = 1 ∧
     (mapGet r.1.playerStats "alice").isSome = true) := by
  decide

/-- C8 (amended): the handler rejects a missing user id, a score
outside the numeric range [0, 100000], and a timestamp that is negative
or more than 60 seconds ahead of server time, each with a validation
error and with no state mutation whatsoever; integrality of the score
is not checked, so in-range non-integer numbers are accepted. -/
theorem c8_invalid_rejected_no_mutation (st : GState) (req : ScoreRequest)
    (now : ℚ) (r : Option String)
    (h : req.userId = "" ∨ req.score < 0 ∨ req.score > 100000 ∨
         req.timestamp < 0 ∨ req.timestamp > qadd now 60000) :
    (scoreHandler st req now r).1 = st ∧
    (scoreHandler st req now r).2.1 = [] ∧
    (scoreHandler st req now r).2.2.isErr = true := by
  unfold scoreHandler
  by_cases h1 : req.userId = ""
  · simp [h1, ScoreResult.isErr]
  · by_cases h2 : req.score < 0 ∨ req.score > 100000
    · simp [h1, h2, ScoreResult.isErr]
    · by_cases h3 : req.timestamp < 0 ∨ req.timestamp > qadd now 60000
      · simp [h1, h2, h3, ScoreResult.isErr]
      · exact absurd h (by tauto)

/-- Witness for C8 (amended): the score -1 is rejected and the empty
state is untouched. -/
theorem c8_invalid_rejected_no_mutation_witness :
    (("alice" : String) = "" ∨ (mkRat (-1) 1 : ℚ) < 0 ∨
      (mkRat (-1) 1 : ℚ) > 100000 ∨ (0 : ℚ) < 0 ∨ (0 : ℚ) > qadd 0 60000) ∧
    ((scoreHandler emptyState ⟨"alice", mkRat (-1) 1, 0, "Alice", none⟩ 0 none).1 =
        emptyState ∧
     (scoreHandler emptyState ⟨"alice", mkRat (-1) 1, 0, "Alice", none⟩ 0 none).2.1 =
        [] ∧
     (scoreHandler emptyState
        ⟨"alice", mkRat (-1) 1, 0, "Alice", none⟩ 0 none).2.2.isErr = true) :=
  ⟨by decide,
   c8_invalid_rejected_no_mutation emptyState
     ⟨"alice", mkRat (-1) 1, 0, "Alice", none⟩ 0 none (by decide)⟩

/-- C9: when a transaction hash is present and on-chain verification
raises a timeout (rather than a mined-but-reverted receipt or another
error), the payment is treated as provisionally successful: its status
becomes `confirmed`, and the payment id joins the confirmed set. -/
theorem c9_timeout_confirms (st : GState) (tx : TxResponse)
    (p : PendingPayment) (h : String)
    (hp : mapGet st.pendingPayments tx.requestId = some p)
    (hh : tx.txHash = some h) :
    (mapGet (onTransactionResponse st tx .errTimeout).1.pendingPayments
        tx.requestId).map PendingPayment.status = some .confirmed ∧
    tx.requestId ∈ (onTransactionResponse st tx .errTimeout).1.confirmedPayments := by
  simp only [onTransactionResponse, hp, hh]
  constructor
  · simp [mapGet_mapSet_self]
  · by_cases hm : tx.requestId ∈ st.confirmedPayments <;> simp [setAdd, hm]

/-- Witness for C9: a concrete timeout on the pending solo payment. -/
theorem c9_timeout_confirms_witness :
    (mapGet (onTransactionResponse c5State ⟨"pay-5", some "0xccc"⟩
        .errTimeout).1.pendingPayments "pay-5").map PendingPayment.status =
      some .confirmed ∧
    "pay-5" ∈ (onTransactionResponse c5State ⟨"pay-5", some "0xccc"⟩
        .errTimeout).1.confirmedPayments :=
  c9_timeout_confirms c5State ⟨"pay-5", some "0xccc"⟩
    ⟨"alice", .play, none, "chan", .pending⟩ "0xccc" (by decide) rfl

theorem wonCount_updatePlayerStats (m : List (String × PlayerStats))
    (u d : String) (s : ℚ) (k : String) :
    wonCount (updatePlayerStats m u d s) k = wonCount m k := by
  unfold wonCount updatePlayerStats
  by_cases h : u = k
  · subst h
    rw [mapGet_mapSet_self]
    cases hm : mapGet m u <;> simp [hm, freshStats]
  · rw [mapGet_mapSet_ne _ _ _ _ h]

theorem lostCount_updatePlayerStats (m : List (String × PlayerStats))
    (u d : String) (s : ℚ) (k : String) :
    lostCount (updatePlayerStats m u d s) k = lostCount m k := by
  unfold lostCount updatePlayerStats
  by_cases h : u = k
  · subst h
    rw [mapGet_mapSet_self]
    cases hm : mapGet m u <;> simp [hm, freshStats]
  · rw [mapGet_mapSet_ne _ _ _ _ h]

theorem earningsOf_updatePlayerStats (m : List (String × PlayerStats))
    (u d : String) (s : ℚ) (k : String) :
    earningsOf (updatePlayerStats m u d s) k = earningsOf m k := by
  unfold earningsOf updatePlayerStats
  by_cases h : u = k
  · subst h
    rw [mapGet_mapSet_self]
    cases hm : mapGet m u <;> simp [hm, freshStats]
  · rw [mapGet_mapSet_ne _ _ _ _ h]

theorem wonCount_creditStats (P : List (String × PlayerStats)) (a na b nb : String)
    (prize : Nat) (hab : a ≠ b) :
    wonCount (creditStats P a na b nb prize) a = wonCount P a + 1 := by
  unfold wonCount creditStats
  rw [mapGet_mapSet_ne _ _ _ _ (Ne.symm hab), mapGet_mapSet_self]
  cases hm : mapGet P a <;> rfl

theorem earningsOf_creditStats (P : List (String × PlayerStats)) (a na b nb : String)
    (prize : Nat) (hab : a ≠ b) :
    earningsOf (creditStats P a na b nb prize) a = earningsOf P a + prize := by
  unfold earningsOf creditStats
  rw [mapGet_mapSet_ne _ _ _ _ (Ne.symm hab), mapGet_mapSet_self]
  cases hm : mapGet P a <;> rfl

theorem lostCount_creditStats (P : List (String × PlayerStats)) (a na b nb : String)
    (prize : Nat) (hab : a ≠ b) :
    lostCount (creditStats P a na b nb prize) b = lostCount P b + 1 := by
  unfold lostCount creditStats
  rw [mapGet_mapSet_self, mapGet_mapSet_ne _ _ _ _ hab]
  cases hm : mapGet P b <;> rfl

theorem settleChallenge_deletes (st : GState) (req : ScoreRequest) (cid : String)
    (ch : PendingChallenge) (cs ts : ℚ) (r : Option String) :
    mapGet (settleChallenge st req cid ch cs ts r).1.pendingChallenges cid = none := by
  simp only [settleChallenge]
  exact mapGet_mapDelete_self _ _

theorem settleChallenge_wonCount (st : GState) (req : ScoreRequest) (cid : String)
    (ch : PendingChallenge) (cs ts : ℚ) (r : Option String)
    (hne : ch.challengerId ≠ ch.targetId) :
    wonCount (settleChallenge st req cid ch cs ts r).1.playerStats
        (if cs > ts then ch.challengerId else ch.targetId) =
      wonCount st.playerStats (if cs > ts then ch.challengerId else ch.targetId) + 1 := by
  by_cases hgt : cs > ts
  · simp only [settleChallenge, hgt, if_true, ite_true, eq_self_iff_true]
    exact wonCount_creditStats _ _ _ _ _ _ hne
  · simp only [settleChallenge, hgt, if_false, ite_false, eq_self_iff_true,
      Ne.symm hne]
    exact wonCount_creditStats _ _ _ _ _ _ (Ne.symm hne)

theorem settleChallenge_earnings (st : GState) (req : ScoreRequest) (cid : String)
    (ch : PendingChallenge) (cs ts : ℚ) (r : Option String)
    (hne : ch.challengerId ≠ ch.targetId) :
    earningsOf (settleChallenge st req cid ch cs ts r).1.playerStats
        (if cs > ts then ch.challengerId else ch.targetId) =
      earningsOf st.playerStats (if cs > ts then ch.challengerId else ch.targetId) +
        winnerPrize CHALLENGE_FEE := by
  by_cases hgt : cs > ts
  · simp only [settleChallenge, hgt, if_true, ite_true, eq_self_iff_true]
    exact earningsOf_creditStats _ _ _ _ _ _ hne
  · simp only [settleChallenge, hgt, if_false, ite_false, eq_self_iff_true,
      Ne.symm hne]
    exact earningsOf_creditStats _ _ _ _ _ _ (Ne.symm hne)

theorem settleChallenge_lostCount (st : GState) (req : ScoreRequest) (cid : String)
    (ch : PendingChallenge) (cs ts : ℚ) (r : Option String)
    (hne : ch.challengerId ≠ ch.targetId) :
    lostCount (settleChallenge st req cid ch cs ts r).1.playerStats
        (if cs > ts then ch.targetId else ch.challengerId) =
      lostCount st.playerStats (if cs > ts then ch.targetId else ch.challengerId) + 1 := by
  by_cases hgt : cs > ts
  · simp only [settleChallenge, hgt, if_true, ite_true, eq_self_iff_true]
    exact lostCount_creditStats _ _ _ _ _ _ hne
  · simp only [settleChallenge, hgt, if_false, ite_false, eq_self_iff_true,
      Ne.symm hne]
    exact lostCount_creditStats _ _ _ _ _ _ (Ne.symm hne)

theorem settleChallenge_payout_effect (st : GState) (req : ScoreRequest)
    (cid : String) (ch : PendingChallenge) (cs ts : ℚ) (r : Option String) :
    (settleChallenge st req cid ch cs ts r).2.1.filter Effect.isDisburse =
      [Effect.disburse (if cs > ts then ch.challengerId else ch.targetId)
        (winnerPrize CHALLENGE_FEE)] := rfl

/-- C10: when the target's submission completes a challenge (the
challenger's score is already recorded and the request passes
validation), the winner's win count and earnings and the loser's loss
count are updated and the challenge leaves the live set, for every
disbursement oracle outcome `r` — in particular when the payout fails
(`r = none`); and exactly one payout disbursement attempt is made. -/
theorem c10_settles_despite_disburse_failure (st : GState) (req : ScoreRequest)
    (now : ℚ) (cid : String) (ch : PendingChallenge) (cs : ℚ) (r : Option String)
    (h1 : ¬ req.userId = "")
    (h2 : ¬ (req.score < 0 ∨ req.score > 100000))
    (h3 : ¬ (req.timestamp < 0 ∨ req.timestamp > qadd now 60000))
    (hcid : req.challengeId = some cid)
    (hch : mapGet st.pendingChallenges cid = some ch)
    (huser : req.userId = ch.targetId)
    (hne : ch.challengerId ≠ ch.targetId)
    (hcs : ch.challengerScore = some cs) :
    mapGet (scoreHandler st req now r).1.pendingChallenges cid = none ∧
    wonCount (scoreHandler st req now r).1.playerStats
        (if cs > req.score then ch.challengerId else ch.targetId) =
      wonCount st.playerStats
        (if cs > req.score then ch.challengerId else ch.targetId) + 1 ∧
    earningsOf (scoreHandler st req now r).1.playerStats
        (if cs > req.score then ch.challengerId else ch.targetId) =
      earningsOf st.playerStats
        (if cs > req.score then ch.challengerId else ch.targetId) +
        winnerPrize CHALLENGE_FEE ∧
    lostCount (scoreHandler st req now r).1.playerStats
        (if cs > req.score then ch.targetId else ch.challengerId) =
      lostCount st.playerStats
        (if cs > req.score then ch.targetId else ch.challengerId) + 1 ∧
    (scoreHandler st req now r).2.1.filter Effect.isDisburse =
      [Effect.disburse (if cs > req.score then ch.challengerId else ch.targetId)
        (winnerPrize CHALLENGE_FEE)] := by
  have hne' : ¬ req.userId = ch.challengerId := fun hc => hne (hc.symm.trans huser)
  have h1t : ¬ ch.targetId = "" := fun hc => h1 (huser.trans hc)
  have hred : scoreHandler st req now r =
      settleChallenge
        { st with
          playerStats := updatePlayerStats st.playerStats req.userId
            (if req.displayName = "" then "Player" else req.displayName) req.score
          totalGamesPlayed := st.totalGamesPlayed + 1
          pendingChallenges := mapSet st.pendingChallenges cid
            ({ ch with targetScore := some req.score }) }
        req cid ({ ch with targetScore := some req.score }) cs req.score r := by
    simp only [scoreHandler, h1, h1t, h2, h3, hcid, hch, hne', huser, hcs,
      Ne.symm hne, if_false, ite_false, if_true, ite_true, eq_self_iff_true]
  rw [hred]
  set ch1 := ({ ch with targetScore := some req.score } : PendingChallenge) with hch1
  set st2 := ({ st with
      playerStats := updatePlayerStats st.playerStats req.userId
        (if req.displayName = "" then "Player" else req.displayName) req.score
      totalGamesPlayed := st.totalGamesPlayed + 1
      pendingChallenges := mapSet st.pendingChallenges cid ch1 } : GState) with hst2
  have e1 : ch1.challengerId = ch.challengerId := rfl
  have e2 : ch1.targetId = ch.targetId := rfl
  refine ⟨?_, ?_, ?_, ?_, ?_⟩
  · exact settleChallenge_deletes st2 req cid ch1 cs req.score r
  · have hw := settleChallenge_wonCount st2 req cid ch1 cs req.score r hne
    rw [e1, e2] at hw
    rw [hw, hst2]
    dsimp only
    rw [wonCount_updatePlayerStats]
  · have he := settleChallenge_earnings st2 req cid ch1 cs req.score r hne
    rw [e1, e2] at he
    rw [he, hst2]
    dsimp only
    rw [earningsOf_updatePlayerStats]
  · have hl := settleChallenge_lostCount st2 req cid ch1 cs req.score r hne
    rw [e1, e2] at hl
    rw [hl, hst2]
    dsimp only
    rw [lostCount_updatePlayerStats]
  · have hp := settleChallenge_payout_effect st2 req cid ch1 cs req.score r
    rw [e1, e2] at hp
    exact hp

/-- Witness for C10: the target completes `challenge-3` with 650 against
the recorded 500; the payout oracle reports failure (`none`), yet the
winner/loser records are updated and the challenge is gone, with exactly
one payout attempt. -/
theorem c10_settles_despite_disburse_failure_witness :
    mapGet (scoreHandler c3State ⟨"bob", 650, 0, "Bob", some "challenge-3"⟩
        0 none).1.pendingChallenges "challenge-3" = none ∧
    wonCount (scoreHandler c3State ⟨"bob", 650, 0, "Bob", some "challenge-3"⟩
        0 none).1.playerStats "bob" = wonCount c3State.playerStats "bob" + 1 ∧
    earningsOf (scoreHandler c3State ⟨"bob", 650, 0, "Bob", some "challenge-3"⟩
        0 none).1.playerStats "bob" =
      earningsOf c3State.playerStats "bob" + winnerPrize CHALLENGE_FEE ∧
    lostCount (scoreHandler c3State ⟨"bob", 650, 0, "Bob", some "challenge-3"⟩
        0 none).1.playerStats "alice" = lostCount c3State.playerStats "alice" + 1 ∧
    (scoreHandler c3State ⟨"bob", 650, 0, "Bob", some "challenge-3"⟩
        0 none).2.1.filter Effect.isDisburse =
      [Effect.disburse "bob" (winnerPrize CHALLENGE_FEE)] :=
  c10_settles_despite_disburse_failure c3State
    ⟨"bob", 650, 0, "Bob", some "challenge-3"⟩ 0 "challenge-3" c3Challenge 500 none
    (by decide) (by decide) (by decide) rfl (by decide) rfl (by decide) rfl
